import Mathlib

/-!
Shallow embedding of `src/service/econ.ts` (class `TeeworldsEcon`), a client
for the Teeworlds external-console protocol over TCP.

The class's mutable fields become a Lean record; each event handler of the
source (the `connect`/`disconnect`/`send` methods, the `data` listener, the
`setTimeout` callback, the `close`/`error` listeners, the static `quickfire`
helper) becomes a pure function from the record (plus the event's payload) to
the updated record and a list of observable effects (`Output`).  The socket and
timer handles are modelled as `Nat` identifiers drawn from a counter `nextId`;
`armed` is the set of timers that have been created by `setTimeout` and neither
fired nor been cancelled by `clearTimeout`.  The promise returned by
`connect()` is modelled by `promise`, with JavaScript's settle-once rule
(`settle`).
-/

namespace Stormbreaker

/-- JS `String.prototype.startsWith`, as used on the decoded chunk text. -/
def jsStartsWith (s p : String) : Bool :=
  p.toList.isPrefixOf s.toList

/-- JS `String.prototype.trimEnd`: strip trailing whitespace. -/
def jsTrimEnd (s : String) : String :=
  String.mk (s.toList.reverse.dropWhile Char.isWhitespace).reverse

/-- The `EconOptions` interface.  `host` and `timeout` are optional; `none`
models an absent (undefined) field. -/
structure EconOptions where
  host : Option String
  port : Nat
  password : String
  timeout : Option Nat
deriving DecidableEq, Repr

/-- The `state` field's three string values. -/
inductive ConnState
  | connecting
  | connected
  | disconnected
deriving DecidableEq, Repr

/-- The settlement state of the promise returned by `connect()`. -/
inductive PromiseState
  | pending
  | resolved
  | rejected (msg : String)
deriving DecidableEq, Repr

/-- Observable effects of one event-handler run: a `conn.write`, a call of the
`messageHooks` slot (performed only outside the `connecting` state), a call of
the `closeHook` / `errorHook` slots, a `conn.end()` on socket `sock`, or a
JS null dereference (`this.conn.end()` with `conn` null, unreachable in real
traces). -/
inductive Output
  | write (bytes : String)
  | message (line : String)
  | closeHook (hadError : Bool)
  | errorHook
  | endConn (sock : Nat)
  | nullDeref
deriving DecidableEq, Repr

/-- The mutable fields of class `TeeworldsEcon`.  `conn` and `timeout` are the
handle-valued fields (`none` = JS null/undefined); `armed` tracks which timer
ids are still scheduled; `promise` is the settlement state of the pending
`connect()` result (`none` before any `connect`). -/
structure TeeworldsEcon where
  options : EconOptions
  state : ConnState
  conn : Option Nat
  timeout : Option Nat
  armed : List Nat
  promise : Option PromiseState
  nextId : Nat
deriving DecidableEq, Repr

namespace TeeworldsEcon

/-- The constructor: only `options` is set; `state` starts `disconnected`, the
handle fields start undefined. -/
def mkEcon (o : EconOptions) : TeeworldsEcon :=
  { options := o
    state := ConnState.disconnected
    conn := none
    timeout := none
    armed := []
    promise := none
    nextId := 0 }

/-- The two defaulting statements at the top of `connect()`:
`if (!this.options.timeout) this.options.timeout = 10000` and
`if (!this.options.host) this.options.host = 'localhost'` (JS falsiness: an
absent value, the number 0, the empty string). -/
def jsOptionDefaults (o : EconOptions) : EconOptions :=
  { o with
    timeout := some (match o.timeout with
      | none => 10000
      | some 0 => 10000
      | some n => n)
    host := some (match o.host with
      | none => "localhost"
      | some "" => "localhost"
      | some h => h) }

/-- JS promise settlement: only a pending promise can be settled; later
`resolve`/`reject` calls are no-ops. -/
def settle (p : Option PromiseState) (v : PromiseState) : Option PromiseState :=
  match p with
  | some PromiseState.pending => some v
  | _ => p

/-- The synchronous part of `connect()`: apply option defaults, set
`state = 'connecting'`, open a fresh socket (`net.connect`), create the
returned promise, and arm a fresh handshake timer (`setTimeout`), overwriting
`this.timeout` without clearing any previously armed timer.  The source
performs no check of the current state. -/
def connect (e : TeeworldsEcon) : TeeworldsEcon × List Output :=
  let o := jsOptionDefaults e.options
  let sock := e.nextId
  let timer := e.nextId + 1
  ({ options := o
     state := ConnState.connecting
     conn := some sock
     timeout := some timer
     armed := timer :: e.armed
     promise := some PromiseState.pending
     nextId := e.nextId + 2 }, [])

/-- `disconnect()`: if `this.state != 'disconnected' || this.conn`, set
`state = 'disconnected'`, call `this.conn.end()` and null the handle.  The
timer field and any armed timer are left untouched. -/
def disconnect (e : TeeworldsEcon) : TeeworldsEcon × List Output :=
  if e.state ≠ ConnState.disconnected ∨ e.conn ≠ none then
    ({ e with state := ConnState.disconnected, conn := none },
      match e.conn with
      | some s => [Output.endConn s]
      | none => [Output.nullDeref])
  else
    (e, [])

/-- The `setTimeout` callback for timer `t` (runs only while `t` is armed;
firing consumes the timer): if still `connecting`, call `disconnect()` and
reject the `connect()` promise with `Connection timeout.`; otherwise nothing. -/
def timerFire (e : TeeworldsEcon) (t : Nat) : TeeworldsEcon × List Output :=
  let e1 : TeeworldsEcon := { e with armed := e.armed.erase t }
  if e1.state = ConnState.connecting then
    let r := disconnect e1
    ({ r.1 with promise := settle r.1.promise (PromiseState.rejected ("Connection timeout.")) },
      r.2)
  else
    (e1, [])

/-- The `conn.on('data', ...)` listener: decode the chunk, `trimEnd` it, and
treat the result as one line.  While `connecting`: the `Enter password:`
prefix answers with the password, the `Authentication successful.` prefix
moves to `connected`, clears the timer and resolves the promise, the
`Wrong password.` prefix rejects the promise, anything else is ignored.
Otherwise the line goes to the `messageHooks` slot. -/
def handleData (e : TeeworldsEcon) (data : String) : TeeworldsEcon × List Output :=
  let line := jsTrimEnd data
  if e.state = ConnState.connecting then
    if jsStartsWith line ("Enter password:") then
      (e, [Output.write (e.options.password ++ "\n")])
    else if jsStartsWith line ("Authentication successful.") then
      let e1 : TeeworldsEcon := { e with state := ConnState.connected }
      let e2 : TeeworldsEcon :=
        match e1.timeout with
        | some t => { e1 with timeout := none, armed := e1.armed.erase t }
        | none => e1
      ({ e2 with promise := settle e2.promise PromiseState.resolved }, [])
    else if jsStartsWith line ("Wrong password.") then
      ({ e with promise := settle e.promise (PromiseState.rejected ("Wrong password.")) }, [])
    else
      (e, [])
  else
    (e, [Output.message line])

/-- The `conn.on('close', ...)` listener: forwards to `closeHook` only. -/
def handleClose (e : TeeworldsEcon) (hadError : Bool) : TeeworldsEcon × List Output :=
  (e, [Output.closeHook hadError])

/-- The `conn.on('error', ...)` listener: forwards to `errorHook` only. -/
def handleError (e : TeeworldsEcon) : TeeworldsEcon × List Output :=
  (e, [Output.errorHook])

/-- Feed a sequence of received byte chunks through the data listener,
accumulating the effects. -/
def processChunks (e : TeeworldsEcon) (chunks : List String) : TeeworldsEcon × List Output :=
  chunks.foldl
    (fun acc d =>
      let r := handleData acc.1 d
      (r.1, acc.2 ++ r.2))
    (e, [])

end TeeworldsEcon

/-- The argument of `send`: a single command string or an array of commands. -/
inductive Command
  | single (c : String)
  | multi (cs : List String)
deriving DecidableEq, Repr

/-- The bytes `send` writes: `command.join('\n') + '\n'` for an array,
`command + '\n'` for a single command. -/
def serializeCommand : Command → String
  | Command.single c => c ++ "\n"
  | Command.multi cs => String.intercalate ("\n") cs ++ "\n"

/-- How a `send()` call completes: immediately (write flushed), after the
next `drain` event (write reported backpressure), or by throwing. -/
inductive SendResult
  | immediate
  | awaitDrain
  | notConnectedError (msg : String)
deriving DecidableEq, Repr

namespace TeeworldsEcon

/-- `send(command)`: only while `connected` is a single `conn.write` of the
serialized bytes issued; `flushed` is the boolean that write returned.  If the
write was not flushed the method returns a promise resolved by the next
`drain` event, otherwise it returns at once.  In any other state it throws
`Connection not established` without writing. -/
def send (e : TeeworldsEcon) (cmd : Command) (flushed : Bool) :
    SendResult × List Output :=
  if e.state = ConnState.connected then
    let bytes := serializeCommand cmd
    if flushed then
      (SendResult.immediate, [Output.write bytes])
    else
      (SendResult.awaitDrain, [Output.write bytes])
  else
    (SendResult.notConnectedError ("Connection not established"), [])

end TeeworldsEcon

/-- One step of the static `quickfire` helper's script. -/
inductive QfStep
  | connectStep
  | subscribeMessage
  | sendStep (cmd : Command)
  | waitStep (ms : Nat)
  | disconnectStep
deriving DecidableEq, Repr

/-- The static `quickfire(options, command, collectResponsesFor = 0)` helper as
the sequence of operations it performs and the value it returns.  `arriving`
is the environment: the message lines delivered during a wait window.  The
branch test is JS truthiness of the number `collectResponsesFor`. -/
def quickfire (cmd : Command) (collectResponsesFor : Nat) (arriving : List String) :
    List QfStep × Option (List String) :=
  if collectResponsesFor ≠ 0 then
    ([QfStep.connectStep, QfStep.subscribeMessage, QfStep.sendStep cmd,
      QfStep.waitStep collectResponsesFor, QfStep.disconnectStep],
      some arriving)
  else
    ([QfStep.connectStep, QfStep.sendStep cmd, QfStep.disconnectStep], none)

/-- The two-argument `quickfire` overload, which runs the implementation with
the default `collectResponsesFor = 0`. -/
def quickfireNoWindow (cmd : Command) (arriving : List String) :
    List QfStep × Option (List String) :=
  quickfire cmd 0 arriving

/-- All states of one `TeeworldsEcon` instance reachable through its public
operations and transport events: `connect`, `disconnect`, the firing of an
armed timer, a received data chunk, a socket close, a socket error. -/
inductive Reach : TeeworldsEcon → Prop
  | init (o : EconOptions) : Reach (TeeworldsEcon.mkEcon o)
  | connectStep {e : TeeworldsEcon} : Reach e → Reach (TeeworldsEcon.connect e).1
  | disconnectStep {e : TeeworldsEcon} : Reach e → Reach (TeeworldsEcon.disconnect e).1
  | timerStep {e : TeeworldsEcon} {t : Nat} : Reach e → t ∈ e.armed →
      Reach (TeeworldsEcon.timerFire e t).1
  | dataStep {e : TeeworldsEcon} (d : String) : Reach e →
      Reach (TeeworldsEcon.handleData e d).1
  | closeStep {e : TeeworldsEcon} (b : Bool) : Reach e →
      Reach (TeeworldsEcon.handleClose e b).1
  | errorStep {e : TeeworldsEcon} : Reach e → Reach (TeeworldsEcon.handleError e).1

/-- A concrete option record used to evaluate the model. -/
def o0 : EconOptions :=
  { host := none, port := 8303, password := "secret", timeout := none }

/-- A concrete instance in the `connecting` state: freshly constructed, with
`connect()` called once. -/
def econConnecting : TeeworldsEcon :=
  (TeeworldsEcon.mkEcon o0).connect.1

/-- A concrete instance in the `connected` state: `connect()` called, then the
`Authentication successful.` handshake line received. -/
def econConnected : TeeworldsEcon :=
  (TeeworldsEcon.connect (TeeworldsEcon.mkEcon o0)).1.handleData
    ("Authentication successful.\n") |>.1

/-- C1.  The data listener has no persistent line buffer: each received chunk
is trimmed and treated as one whole line.  On the spec's own failing input —
the terminal handshake line split as `"Authentication success"` then
`"ful.\n"` — neither chunk matches a handshake prefix, so the connection stays
`connecting` with the `connect()` promise still pending and no effect at all,
instead of the line being reassembled and processed once.  Moreover a single
chunk holding two complete lines is dispatched as one message containing the
embedded terminator, not as two messages. -/
theorem split_auth_line_not_reassembled :
    (TeeworldsEcon.processChunks econConnecting
        ["Authentication success", "ful.\n"]).1.state = ConnState.connecting ∧
    (TeeworldsEcon.processChunks econConnecting
        ["Authentication success", "ful.\n"]).1.promise = some PromiseState.pending ∧
    (TeeworldsEcon.processChunks econConnecting
        ["Authentication success", "ful.\n"]).2 = [] ∧
    (econConnected.handleData ("line one\nline two\n")).2 =
      [Output.message ("line one\nline two")] := by
  decide

/-- C2, counterexample.  A `connect()` that fails because the server answered
`Wrong password.` does not leave the instance disconnected: the promise is
rejected while `state` is still `connecting`, the socket handle is still held
and the handshake timer is still armed. -/
theorem wrong_password_leaves_connecting_state :
    (econConnecting.handleData ("Wrong password.\n")).1.promise =
      some (PromiseState.rejected ("Wrong password.")) ∧
    (econConnecting.handleData ("Wrong password.\n")).1.state ≠
      ConnState.disconnected ∧
    (econConnecting.handleData ("Wrong password.\n")).1.conn ≠ none ∧
    (econConnecting.handleData ("Wrong password.\n")).1.armed ≠ [] := by
  decide

/-- C2, amended.  Of the ways `connect()` can fail, only the timeout path
tears the connection down: the timer firing leaves `state = disconnected`, no
socket handle, no armed timer and the promise rejected with
`Connection timeout.` (the stale timer id remains in the `timeout` field).  A
`Wrong password.` line rejects the promise but leaves the instance
`connecting` with the socket and the armed timer intact, and a transport
close or error event does not settle the promise at all. -/
theorem connect_failure_paths (o : EconOptions) :
    (((TeeworldsEcon.mkEcon o).connect.1.timerFire ((TeeworldsEcon.mkEcon o).nextId + 1)).1.state =
        ConnState.disconnected ∧
      ((TeeworldsEcon.mkEcon o).connect.1.timerFire ((TeeworldsEcon.mkEcon o).nextId + 1)).1.conn = none ∧
      ((TeeworldsEcon.mkEcon o).connect.1.timerFire ((TeeworldsEcon.mkEcon o).nextId + 1)).1.armed = [] ∧
      ((TeeworldsEcon.mkEcon o).connect.1.timerFire ((TeeworldsEcon.mkEcon o).nextId + 1)).1.promise =
        some (PromiseState.rejected ("Connection timeout."))) ∧
    (((TeeworldsEcon.mkEcon o).connect.1.handleData ("Wrong password.\n")).1.state =
        ConnState.connecting ∧
      ((TeeworldsEcon.mkEcon o).connect.1.handleData ("Wrong password.\n")).1.conn =
        some (TeeworldsEcon.mkEcon o).nextId ∧
      ((TeeworldsEcon.mkEcon o).connect.1.handleData ("Wrong password.\n")).1.armed =
        [(TeeworldsEcon.mkEcon o).nextId + 1] ∧
      ((TeeworldsEcon.mkEcon o).connect.1.handleData ("Wrong password.\n")).1.promise =
        some (PromiseState.rejected ("Wrong password."))) ∧
    ((TeeworldsEcon.mkEcon o).connect.1.handleClose true).1.promise =
      some PromiseState.pending ∧
    ((TeeworldsEcon.mkEcon o).connect.1.handleError).1.promise =
      some PromiseState.pending :=
  ⟨⟨rfl, rfl, rfl, rfl⟩, ⟨rfl, rfl, rfl, rfl⟩, rfl, rfl⟩

/-- C3, counterexample.  Calling `connect()` a second time while the instance
is `connecting` does not fail with a usage error: it starts a fresh handshake
(a new pending promise), opens a second socket (the handle changes from id 0
to id 2) and arms a second timer (ids 3 and 1 are both armed). -/
theorem second_connect_starts_second_handshake :
    econConnecting.state = ConnState.connecting ∧
    econConnecting.connect.1.state = ConnState.connecting ∧
    econConnecting.connect.1.promise = some PromiseState.pending ∧
    econConnecting.conn = some 0 ∧
    econConnecting.connect.1.conn = some 2 ∧
    econConnecting.connect.1.armed = [3, 1] := by
  decide

/-- C3, amended.  `connect()` performs no state check at all: called in any
state whatsoever it moves to `connecting`, replaces the socket handle with a
fresh one, overwrites the timer field with a freshly armed timer (leaving any
previously armed timer running), and installs a new pending promise — it
never fails with a usage error. -/
theorem connect_unconditional (e : TeeworldsEcon) :
    e.connect.1.state = ConnState.connecting ∧
    e.connect.1.conn = some e.nextId ∧
    e.connect.1.timeout = some (e.nextId + 1) ∧
    e.connect.1.armed = (e.nextId + 1) :: e.armed ∧
    e.connect.1.promise = some PromiseState.pending ∧
    e.connect.2 = [] :=
  ⟨rfl, rfl, rfl, rfl, rfl, rfl⟩

/-- C7.  While `connected`, a `send()` whose single write was flushed
completes immediately, and one whose write reported backpressure completes
only by awaiting the transport's `drain` signal; either way exactly the
serialized bytes are written. -/
theorem send_backpressure (e : TeeworldsEcon) (cmd : Command) (flushed : Bool)
    (h : e.state = ConnState.connected) :
    (e.send cmd flushed).1 =
      (if flushed then SendResult.immediate else SendResult.awaitDrain) ∧
    (e.send cmd flushed).2 = [Output.write (serializeCommand cmd)] := by
  cases flushed <;> simp [TeeworldsEcon.send, h]

/-- C7, witness at a concrete connected instance and a backpressured write. -/
theorem send_backpressure_witness :
    econConnected.state = ConnState.connected ∧
    ((econConnected.send (Command.single ("status")) false).1 =
        (if false then SendResult.immediate else SendResult.awaitDrain) ∧
      (econConnected.send (Command.single ("status")) false).2 =
        [Output.write (serializeCommand (Command.single ("status")))]) :=
  ⟨by decide, send_backpressure econConnected (Command.single ("status")) false (by decide)⟩

/-- C8.  While `connected`, `send` issues exactly one write: an array of
commands is serialized as the commands joined by the line terminator plus one
trailing terminator, a single command gets exactly one trailing terminator,
and in particular sending `["status", "echo hi"]` writes exactly the bytes
`status\necho hi\n`. -/
theorem send_serialization (e : TeeworldsEcon) (flushed : Bool) (c : String)
    (cs : List String) (h : e.state = ConnState.connected) :
    (e.send (Command.multi cs) flushed).2 =
      [Output.write (String.intercalate ("\n") cs ++ "\n")] ∧
    (e.send (Command.single c) flushed).2 = [Output.write (c ++ "\n")] ∧
    (e.send (Command.multi ["status", "echo hi"]) flushed).2 =
      [Output.write ("status\necho hi\n")] := by
  cases flushed <;>
    simp [TeeworldsEcon.send, serializeCommand, h] <;>
    decide

/-- C8, witness at a concrete connected instance. -/
theorem send_serialization_witness :
    econConnected.state = ConnState.connected ∧
    ((econConnected.send (Command.multi ["status", "echo hi"]) true).2 =
        [Output.write (String.intercalate ("\n") ["status", "echo hi"] ++ "\n")] ∧
      (econConnected.send (Command.single ("status")) true).2 =
        [Output.write ("status" ++ "\n")] ∧
      (econConnected.send (Command.multi ["status", "echo hi"]) true).2 =
        [Output.write ("status\necho hi\n")]) :=
  ⟨by decide,
    send_serialization econConnected true ("status") ["status", "echo hi"] (by decide)⟩

/-- C9.  A `send()` made while `disconnected` or `connecting` throws
`Connection not established` and writes nothing to the transport. -/
theorem send_not_connected (e : TeeworldsEcon) (cmd : Command) (flushed : Bool)
    (h : e.state = ConnState.disconnected ∨ e.state = ConnState.connecting) :
    e.send cmd flushed =
      (SendResult.notConnectedError ("Connection not established"), []) := by
  have hne : ¬ e.state = ConnState.connected := by
    rcases h with h | h <;> simp [h]
  simp [TeeworldsEcon.send, hne]

/-- C9, witness: a fresh (disconnected) instance and a connecting instance. -/
theorem send_not_connected_witness :
    ((TeeworldsEcon.mkEcon o0).state = ConnState.disconnected ∨
      (TeeworldsEcon.mkEcon o0).state = ConnState.connecting) ∧
    (TeeworldsEcon.mkEcon o0).send (Command.single ("status")) true =
      (SendResult.notConnectedError ("Connection not established"), []) :=
  ⟨Or.inl (by decide),
    send_not_connected (TeeworldsEcon.mkEcon o0) (Command.single ("status")) true
      (Or.inl (by decide))⟩

/-- C10.  `quickfire` with a collection window of exactly 0 runs the very same
code path as the two-argument overload (whose default window is 0): it
connects, sends, disconnects, never registers a message subscriber, and
returns no collected sequence (`none`), not an empty one. -/
theorem quickfire_zero_window (cmd : Command) (arriving : List String) :
    quickfire cmd 0 arriving = quickfireNoWindow cmd arriving ∧
    (quickfire cmd 0 arriving).1 =
      [QfStep.connectStep, QfStep.sendStep cmd, QfStep.disconnectStep] ∧
    QfStep.subscribeMessage ∉ (quickfire cmd 0 arriving).1 ∧
    (quickfire cmd 0 arriving).2 = none := by
  refine ⟨rfl, rfl, ?_, rfl⟩
  simp [quickfire]

/-- Two byte-prefix tests with distinct first characters cannot both hold. -/
theorem isPrefixOf_head_eq {a b : Char} {as bs l : List Char}
    (ha : (a :: as).isPrefixOf l = true) (hb : (b :: bs).isPrefixOf l = true) :
    a = b := by
  cases l with
  | nil => simp [List.isPrefixOf] at ha
  | cons c cs =>
    simp [List.isPrefixOf] at ha hb
    exact ha.1.trans hb.1.symm

/-- A line beginning with `Authentication successful.` does not begin with
`Enter password:`. -/
theorem jsStartsWith_auth_not_enter (s : String)
    (h : jsStartsWith s ("Authentication successful.") = true) :
    jsStartsWith s ("Enter password:") = false := by
  cases hb : jsStartsWith s ("Enter password:") with
  | false => rfl
  | true =>
    exfalso
    unfold jsStartsWith at h hb
    have h1 : ("Authentication successful.").toList =
        'A' :: ("uthentication successful.").toList := rfl
    have h2 : ("Enter password:").toList = 'E' :: ("nter password:").toList := rfl
    rw [h1] at h
    rw [h2] at hb
    have hab := isPrefixOf_head_eq h hb
    simp at hab

/-- C5.  While `connecting`: a line beginning with `Enter password:` makes the
client write the password plus a terminator and change nothing else; a line
beginning with `Authentication successful.` moves the state to `connected`,
clears and cancels the pending timer and resolves the `connect()` promise;
and no line whatsoever is handed to the message subscriber slot. -/
theorem handshake_line_handling (e : TeeworldsEcon) (d : String)
    (h : e.state = ConnState.connecting) :
    (jsStartsWith (jsTrimEnd d) ("Enter password:") = true →
      e.handleData d = (e, [Output.write (e.options.password ++ "\n")])) ∧
    (jsStartsWith (jsTrimEnd d) ("Authentication successful.") = true →
      (e.handleData d).1.state = ConnState.connected ∧
      (e.handleData d).1.timeout = none ∧
      (∀ t, e.timeout = some t → (e.handleData d).1.armed = e.armed.erase t) ∧
      (e.handleData d).1.promise = TeeworldsEcon.settle e.promise PromiseState.resolved) ∧
    (∀ l, Output.message l ∉ (e.handleData d).2) := by
  refine ⟨?_, ?_, ?_⟩
  · intro hp
    simp [TeeworldsEcon.handleData, h, hp]
  · intro hp
    have hne := jsStartsWith_auth_not_enter (jsTrimEnd d) hp
    cases ht : e.timeout with
    | none =>
      simp [TeeworldsEcon.handleData, h, hp, hne, ht]
    | some t =>
      simp [TeeworldsEcon.handleData, h, hp, hne, ht]
  · intro l
    simp only [TeeworldsEcon.handleData, h]
    split
    · split
      · simp
      · split
        · simp
        · split <;> simp
    · simp_all

/-- C5, witness at a concrete connecting instance, with a password prompt and
a success line. -/
theorem handshake_line_handling_witness :
    econConnecting.state = ConnState.connecting ∧
    econConnecting.handleData ("Enter password:\n") =
      (econConnecting, [Output.write (econConnecting.options.password ++ "\n")]) ∧
    (econConnecting.handleData ("Authentication successful.\n")).1.state =
      ConnState.connected ∧
    (econConnecting.handleData ("Authentication successful.\n")).1.timeout = none ∧
    (econConnecting.handleData ("Authentication successful.\n")).1.armed =
      econConnecting.armed.erase 1 ∧
    (econConnecting.handleData ("Authentication successful.\n")).1.promise =
      TeeworldsEcon.settle econConnecting.promise PromiseState.resolved ∧
    Output.message ("Enter password:") ∉
      (econConnecting.handleData ("Enter password:\n")).2 := by
  have h1 := handshake_line_handling econConnecting ("Enter password:\n") (by decide)
  have h2 := handshake_line_handling econConnecting ("Authentication successful.\n")
    (by decide)
  have h2a := h2.2.1 (by decide)
  exact ⟨by decide, h1.1 (by decide), h2a.1, h2a.2.1, h2a.2.2.1 1 (by decide),
    h2a.2.2.2, h1.2.2 ("Enter password:")⟩

/-- C6.  If the handshake timer fires while still `connecting`, the `connect()`
promise is rejected with `Connection timeout.`, the socket is closed and
released, and the state becomes `disconnected`.  If the timer fires after
authentication has already completed (state `connected` — in a real trace the
timer was cancelled on success and cannot fire at all), the callback changes
nothing and produces no effect. -/
theorem timeout_fire_behavior (e : TeeworldsEcon) (t : Nat) :
    (e.state = ConnState.connecting →
      (e.timerFire t).1.state = ConnState.disconnected ∧
      (e.timerFire t).1.conn = none ∧
      (e.timerFire t).1.promise =
        TeeworldsEcon.settle e.promise (PromiseState.rejected ("Connection timeout.")) ∧
      (∀ s, e.conn = some s → (e.timerFire t).2 = [Output.endConn s])) ∧
    (e.state = ConnState.connected →
      (e.timerFire t).1 = { e with armed := e.armed.erase t } ∧
      (e.timerFire t).2 = []) := by
  constructor
  · intro h
    refine ⟨?_, ?_, ?_, ?_⟩ <;>
      simp [TeeworldsEcon.timerFire, TeeworldsEcon.disconnect, h]
    intro s hs
    simp [hs]
  · intro h
    constructor <;> simp [TeeworldsEcon.timerFire, h]

/-- C6, witness: the timer of a concrete connecting instance fires. -/
theorem timeout_fire_behavior_witness :
    econConnecting.state = ConnState.connecting ∧
    ((econConnecting.timerFire 1).1.state = ConnState.disconnected ∧
      (econConnecting.timerFire 1).1.conn = none ∧
      (econConnecting.timerFire 1).1.promise =
        TeeworldsEcon.settle econConnecting.promise
          (PromiseState.rejected ("Connection timeout.")) ∧
      (econConnecting.timerFire 1).2 = [Output.endConn 0]) := by
  have h := (timeout_fire_behavior econConnecting 1).1 (by decide)
  exact ⟨by decide, h.1, h.2.1, h.2.2.1, h.2.2.2 0 (by decide)⟩

/-- C4, counterexample.  A reachable state violating "the timer handle is
non-null iff the state is Connecting": after `connect()` the armed timer
fires, leaving the state `disconnected` while the `timeout` field still holds
the stale handle (the timeout path calls `disconnect()`, and neither it nor
`disconnect()` ever nulls the field). -/
theorem timer_handle_nonnull_while_disconnected :
    Reach ((econConnecting.timerFire 1).1) ∧
    (econConnecting.timerFire 1).1.state = ConnState.disconnected ∧
    (econConnecting.timerFire 1).1.timeout = some 1 := by
  refine ⟨?_, by decide, by decide⟩
  exact Reach.timerStep (Reach.connectStep (Reach.init o0)) (by decide)

/-- C4, amended.  In every reachable state, if the state is `connecting` the
timer-handle field is non-null and that timer is still armed, and if the state
is `connected` the field is null; while `disconnected`, however, the field may
retain a stale handle (only authentication success clears it). -/
theorem reachable_timer_state_invariant (e : TeeworldsEcon) (h : Reach e) :
    (e.state = ConnState.connecting → ∃ t, e.timeout = some t ∧ t ∈ e.armed) ∧
    (e.state = ConnState.connected → e.timeout = none) := by
  induction h with
  | init o =>
    simp [TeeworldsEcon.mkEcon]
  | connectStep hr ih =>
    constructor
    · intro _
      exact ⟨_, rfl, List.mem_cons_self _ _⟩
    · intro hc
      simp [TeeworldsEcon.connect] at hc
  | disconnectStep hr ih =>
    unfold TeeworldsEcon.disconnect
    split
    · constructor <;> intro hc <;> simp at hc
    · exact ih
  | timerStep hr hm ih =>
    simp only [TeeworldsEcon.timerFire]
    split
    · rename_i hcond
      constructor <;> intro hc <;>
        simp [TeeworldsEcon.disconnect, hcond] at hc
    · rename_i hcond
      refine ⟨fun hc => absurd hc hcond, fun hc => ih.2 hc⟩
  | dataStep d hr ih =>
    simp only [TeeworldsEcon.handleData]
    split
    · split
      · exact ih
      · split
        · split
          · simp
          · rename_i hnone
            simp [hnone]
        · split
          · exact ih
          · exact ih
    · exact ih
  | closeStep b hr ih =>
    exact ih
  | errorStep hr ih =>
    exact ih

/-- C4, witness for the amended invariant: at the reachable connecting state
the timer-handle field is indeed non-null. -/
theorem reachable_timer_state_invariant_witness :
    econConnecting.timeout ≠ none := by
  have hr : Reach econConnecting := Reach.connectStep (Reach.init o0)
  have h := (reachable_timer_state_invariant econConnecting hr).1 (by decide)
  rcases h with ⟨t, ht, _⟩
  simp [ht]

end Stormbreaker
